import Mathlib

/-!
Verification development for the PYPOWER optimization-model object
(`pypower/opf_model.py`).  The Python class keeps four categories of named
blocks (variables, nonlinear constraints, linear constraints, costs) in
nested dictionaries and assembles global matrices/vectors from them.  The
definitions below are a shallow embedding of that code: Python dictionaries
become association lists, Python floats become an extended-rational scalar
type, and Python exceptions (KeyError, TypeError, IndexError, ValueError)
become an error monad.  `logger.error` in the source only logs and lets
execution continue, so it is modelled as a no-op.
-/

/-- Python exceptions that the embedded code can raise. -/
inductive PErr where
  | keyError
  | typeError
  | indexError
  | valueError
deriving DecidableEq, Repr

/-- Python float scalars: NaN, finite values (as rationals), +Inf, -Inf. -/
inductive PyFloat where
  | nan
  | fin (q : ℚ)
  | inf
  | ninf
deriving DecidableEq, Repr

/-- IEEE negation of a Python float. -/
def PyFloat.neg : PyFloat → PyFloat
  | .nan => .nan
  | .fin q => .fin (-q)
  | .inf => .ninf
  | .ninf => .inf

/-- IEEE addition of Python floats. -/
def PyFloat.add : PyFloat → PyFloat → PyFloat
  | .nan, _ => .nan
  | _, .nan => .nan
  | .fin a, .fin b => .fin (a + b)
  | .inf, .ninf => .nan
  | .ninf, .inf => .nan
  | .inf, _ => .inf
  | _, .inf => .inf
  | .ninf, _ => .ninf
  | _, .ninf => .ninf

/-- IEEE multiplication of Python floats. -/
def PyFloat.mul : PyFloat → PyFloat → PyFloat
  | .nan, _ => .nan
  | _, .nan => .nan
  | .fin a, .fin b => .fin (a * b)
  | .inf, .fin b => if 0 < b then .inf else if b < 0 then .ninf else .nan
  | .fin a, .inf => if 0 < a then .inf else if a < 0 then .ninf else .nan
  | .ninf, .fin b => if 0 < b then .ninf else if b < 0 then .inf else .nan
  | .fin a, .ninf => if 0 < a then .ninf else if a < 0 then .inf else .nan
  | .inf, .inf => .inf
  | .ninf, .ninf => .inf
  | .inf, .ninf => .ninf
  | .ninf, .inf => .ninf

/-- IEEE subtraction of Python floats. -/
def PyFloat.sub (a b : PyFloat) : PyFloat := a.add b.neg

/-- IEEE strict order on Python floats (comparisons with NaN are false). -/
def PyFloat.lt : PyFloat → PyFloat → Bool
  | .nan, _ => false
  | _, .nan => false
  | .ninf, .ninf => false
  | .ninf, _ => true
  | _, .ninf => false
  | .inf, .inf => false
  | .inf, _ => false
  | _, .inf => true
  | .fin a, .fin b => decide (a < b)

/-- A numpy 1-d float array. -/
abbrev PyVec := List PyFloat

/-- A numpy/scipy 2-d float matrix, stored densely row by row (values of the
sparse matrices in the source are modelled by their dense contents). -/
abbrev PyMat := List PyVec

/-- `zeros(n)`. -/
def zerosVec (n : Nat) : PyVec := List.replicate n (.fin 0)

/-- `ones(n)`. -/
def onesVec (n : Nat) : PyVec := List.replicate n (.fin 1)

/-- `Inf * ones(n)`. -/
def infVec (n : Nat) : PyVec := List.replicate n .inf

/-- `-Inf * ones(n)`. -/
def ninfVec (n : Nat) : PyVec := List.replicate n .ninf

/-- Elementwise negation of a vector. -/
def vecNeg (v : PyVec) : PyVec := v.map PyFloat.neg

/-- Elementwise subtraction of two equal-length vectors. -/
def vecSub (a b : PyVec) : PyVec := List.zipWith PyFloat.sub a b

/-- `sparse((r, c))` / `zeros((r, c))`: an all-zero r-by-c matrix. -/
def zerosMat (r c : Nat) : PyMat := List.replicate r (zerosVec c)

/-- Shape `(rows, cols)` of a matrix. -/
def matShape (A : PyMat) : Nat × Nat := (A.length, (A.headD []).length)

/-- Dot product of two vectors. -/
def dotVec (a b : PyVec) : PyFloat :=
  (List.zipWith PyFloat.mul a b).foldl PyFloat.add (.fin 0)

/-- Matrix-vector product `A * x`. -/
def matVec (A : PyMat) (x : PyVec) : PyVec := A.map (fun row => dotVec row x)

/-- A Python dict keyed by strings, in insertion order. -/
abbrev StrMap (α : Type) := List (String × α)

/-- A Python dict keyed by integers, in insertion order. -/
abbrev NatMap (α : Type) := List (Nat × α)

/-- Dict lookup `d.get(k)` on a string-keyed dict. -/
def strGet? {α : Type} (m : StrMap α) (k : String) : Option α :=
  (m.find? (fun p => p.1 == k)).map Prod.snd

/-- Membership test `k in d` on a string-keyed dict. -/
def strHas {α : Type} (m : StrMap α) (k : String) : Bool :=
  (strGet? m k).isSome

/-- Dict item access `d[k]`: KeyError when the key is absent. -/
def strGetE {α : Type} (m : StrMap α) (k : String) : Except PErr α :=
  match strGet? m k with
  | some v => .ok v
  | none => .error .keyError

/-- Dict item assignment `d[k] = v`: update in place, or append a new key. -/
def strSet {α : Type} (m : StrMap α) (k : String) (v : α) : StrMap α :=
  if strHas m k then m.map (fun p => if p.1 == k then (k, v) else p)
  else m ++ [(k, v)]

/-- Dict lookup on an integer-keyed dict. -/
def natGet? {α : Type} (m : NatMap α) (k : Nat) : Option α :=
  (m.find? (fun p => p.1 == k)).map Prod.snd

/-- Dict item access `d[k]` on an integer-keyed dict: KeyError when absent. -/
def natGetE {α : Type} (m : NatMap α) (k : Nat) : Except PErr α :=
  match natGet? m k with
  | some v => .ok v
  | none => .error .keyError

/-- Dict item assignment on an integer-keyed dict. -/
def natSet {α : Type} (m : NatMap α) (k : Nat) (v : α) : NatMap α :=
  if (natGet? m k).isSome then m.map (fun p => if p.1 == k then (k, v) else p)
  else m ++ [(k, v)]

/-- Item access on a value that may be missing from its enclosing dict:
`d[k]` raises KeyError when `k` was never assigned.  Used for the
`"idx"`, `"N"`, `"NS"`, `"order"`, `"data"`, `"params"` entries of the four
category dicts, which `__init__` creates as empty dicts. -/
def keyGet {α : Type} (o : Option α) : Except PErr α :=
  match o with
  | some v => .ok v
  | none => .error .keyError

/-- Equality of embedded computation results is decidable. -/
instance {ε α : Type} [DecidableEq ε] [DecidableEq α] :
    DecidableEq (Except ε α) := fun x y =>
  match x, y with
  | .ok a, .ok b =>
      if h : a = b then isTrue (by rw [h]) else isFalse (by simp [h])
  | .error e, .error f =>
      if h : e = f then isTrue (by rw [h]) else isFalse (by simp [h])
  | .ok _, .error _ => isFalse (by simp)
  | .error _, .ok _ => isFalse (by simp)

/-- The `idx` sub-dict of a category: `i1`, `iN`, `N` maps keyed by block
name (source writes all three keys together). -/
structure IdxMaps where
  i1 : StrMap Nat
  iN : StrMap Nat
  N : StrMap Nat
deriving DecidableEq, Repr

/-- The `data` sub-dict of the variable category. -/
structure VarData where
  v0 : StrMap PyVec
  vl : StrMap PyVec
  vu : StrMap PyVec
deriving DecidableEq, Repr

/-- A varsets value as manipulated by the source: either an explicit Python
list of block names, or the `self.var["order"]` dict itself (the source
assigns that dict directly, by reference, when no varsets are given). -/
inductive VarSets where
  | list (names : List String)
  | refMap (m : NatMap String)
deriving DecidableEq, Repr

/-- The `data` sub-dict of the linear-constraint category. -/
structure LinData where
  A : StrMap PyMat
  l : StrMap PyVec
  u : StrMap PyVec
  vs : StrMap VarSets
deriving DecidableEq, Repr

/-- The `data` sub-dict of the cost category. -/
structure CostData where
  N : StrMap PyMat
  Cw : StrMap PyVec
  vs : StrMap VarSets
  H : StrMap PyMat
  dd : StrMap PyVec
  rh : StrMap PyVec
  kk : StrMap PyVec
  mm : StrMap PyVec
deriving DecidableEq, Repr

/-- The aggregate cost-parameter struct saved by `build_cost_params`. -/
structure CostParams where
  N : PyMat
  Cw : PyVec
  H : PyMat
  dd : PyVec
  rh : PyVec
  kk : PyVec
  mm : PyVec
deriving DecidableEq, Repr

/-- The `self.var` dict.  Every sub-entry is optional because `__init__`
creates `self.var = {}` with none of these keys present. -/
structure VarCat where
  idx : Option IdxMaps := none
  N : Option Nat := none
  NS : Option Nat := none
  order : Option (NatMap String) := none
  data : Option VarData := none
deriving DecidableEq, Repr

/-- The `self.nln` dict (no data payload is ever stored for nonlinear
constraint sets). -/
structure NlnCat where
  idx : Option IdxMaps := none
  N : Option Nat := none
  NS : Option Nat := none
  order : Option (NatMap String) := none
deriving DecidableEq, Repr

/-- The `self.lin` dict. -/
structure LinCat where
  idx : Option IdxMaps := none
  N : Option Nat := none
  NS : Option Nat := none
  order : Option (NatMap String) := none
  data : Option LinData := none
deriving DecidableEq, Repr

/-- The `self.cost` dict. -/
structure CostCat where
  idx : Option IdxMaps := none
  N : Option Nat := none
  NS : Option Nat := none
  order : Option (NatMap String) := none
  data : Option CostData := none
  params : Option CostParams := none
deriving DecidableEq, Repr

/-- The state of an `opf_model` object.  `userdata` is the instance
attribute assigned by `__init__` (`self.userdata = {}`); the stored values
are modelled as integers. -/
structure OM where
  var : VarCat
  nln : NlnCat
  lin : LinCat
  cost : CostCat
  userdata : StrMap Int
deriving DecidableEq, Repr

/-- The state built by `opf_model.__init__`: the four category dicts are
created empty (no `idx`, `N`, `NS`, `order`, `data` keys), and the
`userdata` instance attribute is an empty dict. -/
def opf_model_init : OM :=
  { var := {}, nln := {}, lin := {}, cost := {}, userdata := [] }

/-- The `cp` argument of `add_costs`: a dict with mandatory `N` and `Cw`
entries and optional `H`, `dd`, `rh`, `kk`, `mm` entries. -/
structure CP where
  N : PyMat
  Cw : PyVec
  H : Option PyMat := none
  dd : Option PyVec := none
  rh : Option PyVec := none
  kk : Option PyVec := none
  mm : Option PyVec := none
deriving DecidableEq, Repr

/-- Length of a varsets value (`len(varsets)`). -/
def vsLen (vs : VarSets) : Nat :=
  match vs with
  | .list names => names.length
  | .refMap m => m.length

/-- Item access `varsets[k]`: positional on a Python list (IndexError when
out of range), key lookup on the `var["order"]` dict (KeyError when the
integer key is absent). -/
def vsIdx (vs : VarSets) (k : Nat) : Except PErr String :=
  match vs with
  | .list names =>
      match names.get? k with
      | some s => .ok s
      | none => .error .indexError
  | .refMap m => natGetE m k

/-- The size-accumulation loops of `add_constraints` (lines 102-104) and
`add_costs` (lines 183-185): `nv = nv + self.var["idx"]["N"][varsets[k]]`
for `k in range(len(varsets))`. -/
def vsSumN (om : OM) (vs : VarSets) : Except PErr Nat :=
  (List.range (vsLen vs)).foldlM
    (fun nv k => do
      let v ← vsIdx vs k
      let idx ← keyGet om.var.idx
      let nk ← strGetE idx.N v
      pure (nv + nk))
    0

/-- Embedding of `opf_model.add_vars` (opf_model.py lines 241-278).
The duplicate-name check (line 252) calls `logger.error`, which only logs:
execution continues and the entry is overwritten. -/
def add_vars (om : OM) (name : String) (n : Nat) (v0 vl vu : Option PyVec) :
    Except PErr OM := do
  -- line 252: `if name in self.var["idx"]["N"]:` (duplicate only logged)
  let idx ← keyGet om.var.idx
  let _dup := strHas idx.N name
  -- lines 255-262: defaults when omitted or empty
  let v0 := match v0 with
    | none => zerosVec n
    | some v => if v.isEmpty then zerosVec n else v
  let vl := match vl with
    | none => ninfVec n
    | some v => if v.isEmpty then ninfVec n else v
  let vu := match vu with
    | none => infVec n
    | some v => if v.isEmpty then infVec n else v
  -- lines 266-268: write i1, iN, N for this block
  let vN ← keyGet om.var.N
  let idx : IdxMaps :=
    { i1 := strSet idx.i1 name (vN + 1)
      iN := strSet idx.iN name (vN + n)
      N := strSet idx.N name n }
  -- lines 269-271: store v0, vl, vu
  let d ← keyGet om.var.data
  let d : VarData :=
    { v0 := strSet d.v0 name v0
      vl := strSet d.vl name vl
      vu := strSet d.vu name vu }
  -- line 274: `self.var["N"] = self.var["idx"]["iN"][name]`
  let vN ← strGetE idx.iN name
  -- line 275: `self.var["NS"] = self.var["NS"] + 1`
  let ns ← keyGet om.var.NS
  let ns := ns + 1
  -- line 278: `self.var["order"][self.var["NS"]] = name` (key NS after the
  -- increment, so insertion keys run 1..NS)
  let ord ← keyGet om.var.order
  let ord := natSet ord ns name
  pure { om with
    var := { idx := some idx, N := some vN, NS := some ns,
             order := some ord, data := some d } }

/-- Third positional argument of `add_constraints`: a local matrix for the
linear branch, a row count for the nonlinear branch. -/
inductive AorN where
  | mat (A : PyMat)
  | num (n : Nat)
deriving DecidableEq, Repr

/-- Source line 110 evaluates `self["lin"]["N"]`: the model object defines
no `__getitem__`, so subscripting it raises TypeError in Python. -/
def selfGetItem : Except PErr Nat := .error .typeError

/-- Embedding of `opf_model.add_constraints` (opf_model.py lines 46-123).
The branch is selected by `u is None` exactly as in the source; duplicate
names are only logged (lines 66-67 and 82-83). -/
def add_constraints (om : OM) (name : String) (aorn : AorN) (l : PyVec)
    (u : Option PyVec) (varsets : Option (List String)) : Except PErr OM :=
  match u with
  | none => do
      -- nonlinear branch, lines 63-79
      let idx ← keyGet om.nln.idx
      let _dup := strHas idx.N name
      -- line 70: `self.nln["N"] + 1`
      let nN ← keyGet om.nln.N
      -- line 71 adds AorN to an integer: a matrix argument would raise
      let n ← match aorn with
        | .num n => Except.ok n
        | .mat _ => Except.error .typeError
      let idx : IdxMaps :=
        { i1 := strSet idx.i1 name (nN + 1)
          iN := strSet idx.iN name (nN + n)
          N := strSet idx.N name n }
      -- line 75: `self.nln["N"] = self.nln["idx"]["iN"][name]`
      let nN ← strGetE idx.iN name
      -- line 76
      let ns ← keyGet om.nln.NS
      let ns := ns + 1
      -- line 79: order key is NS after the increment
      let ord ← keyGet om.nln.order
      pure { om with
        nln := { idx := some idx, N := some nN, NS := some ns,
                 order := some (natSet ord ns name) } }
  | some u => do
      -- linear branch, lines 80-123
      -- line 82: `if name in self.lin["idx"]["N"]:` (duplicate only logged)
      let idx0 ← keyGet om.lin.idx
      let _dup := strHas idx0.N name
      -- lines 85-86
      let vs0 : List String := varsets.getD []
      -- line 88: `N, M = AorN.shape`
      let A ← match aorn with
        | .mat A => Except.ok A
        | .num _ => Except.error .typeError
      let N := (matShape A).1
      let M := (matShape A).2
      -- lines 89-93: default bounds
      let l := if l.isEmpty then ninfVec N else l
      let u := if u.isEmpty then infVec N else u
      -- lines 95-96: `varsets = self.var["order"]` is a reference to the
      -- live order dict, not a copy
      let vs ← if vs0.isEmpty then do
          let m ← keyGet om.var.order
          pure (VarSets.refMap m)
        else pure (VarSets.list vs0)
      -- line 99: size mismatch of l/u is only logged
      let _szchk := (l.length != N) || (u.length != N)
      -- lines 102-104
      let nv ← vsSumN om vs
      -- line 106: column mismatch is only logged
      let _colchk := M != nv
      -- lines 110-111: `self["lin"]["N"]` subscripts the object itself and
      -- raises TypeError, so the writes below are never reached
      let linN ← selfGetItem
      let idx : IdxMaps :=
        { i1 := strSet idx0.i1 name (linN + 1)
          iN := strSet idx0.iN name (linN + N)
          N := strSet idx0.N name N }
      -- lines 113-116
      let d ← keyGet om.lin.data
      let d : LinData :=
        { A := strSet d.A name A
          l := strSet d.l name l
          u := strSet d.u name u
          vs := strSet d.vs name vs }
      -- line 119: `self.lin["N"] = self.lin["idx"]["iN"][name]`
      let nN ← strGetE idx.iN name
      -- line 120
      let ns ← keyGet om.lin.NS
      let ns := ns + 1
      -- line 123
      let ord ← keyGet om.lin.order
      pure { om with
        lin := { idx := some idx, N := some nN, NS := some ns,
                 order := some (natSet ord ns name), data := some d } }

/-- Source line 196: `if 'H' in cp & (cp["H"].shape[0] != nw | ...)`.
The bitwise `&` binds tighter than `in`, so Python evaluates
`cp & (...)`: it first evaluates `cp["H"]` (KeyError when `'H'` is
absent), then applies `&` to a dict (TypeError).  Either way the check
raises. -/
def costCheckH (cp : CP) : Except PErr Unit :=
  match cp.H with
  | none => .error .keyError
  | some _ => .error .typeError

/-- Source lines 199-209: `if 'dd' in cp & cp["dd"].shape[0] != nw:` and
the analogous checks for `rh`, `kk`, `mm`.  `&` binds tighter than `in`
and `!=`, so Python evaluates `cp & cp[field].shape[0]`: KeyError when the
field is absent, otherwise TypeError for `dict & int`. -/
def costCheckField (f : Option PyVec) : Except PErr Unit :=
  match f with
  | none => .error .keyError
  | some _ => .error .typeError

/-- Embedding of `opf_model.add_costs` (opf_model.py lines 126-238).
The duplicate-name and size checks are only logged; the `&`-guarded field
checks at lines 196-209 raise unconditionally; the optional-field stores at
lines 222-231 and the total update at line 234 use the literal key
`"name"` instead of the `name` argument. -/
def add_costs (om : OM) (name : String) (cp : CP)
    (varsets : Option (List String)) : Except PErr OM := do
  -- line 171: `if name in self.cost["idx"]["N"]:` (duplicate only logged)
  let idx0 ← keyGet om.cost.idx
  let _dup := strHas idx0.N name
  -- lines 174-178: default varsets is a reference to the live order dict
  let vs0 : List String := varsets.getD []
  let vs ← if vs0.isEmpty then do
      let m ← keyGet om.var.order
      pure (VarSets.refMap m)
    else pure (VarSets.list vs0)
  -- line 180: `nw, nx = cp["N"].shape`
  let nw := (matShape cp.N).1
  let nx := (matShape cp.N).2
  -- lines 183-185
  let nv ← vsSumN om vs
  -- lines 187-191: on mismatch, substitute a zero matrix when nw == 0,
  -- otherwise the error is only logged
  let cpN := if nx ≠ nv then (if nw = 0 then zerosMat nw nx else cp.N) else cp.N
  -- line 193: Cw row check is only logged
  let _cwchk := cp.Cw.length != nw
  -- line 196: always raises, so the writes below are never reached
  let _ ← costCheckH cp
  -- lines 199-209
  let _ ← costCheckField cp.dd
  let _ ← costCheckField cp.rh
  let _ ← costCheckField cp.kk
  let _ ← costCheckField cp.mm
  -- lines 212-217
  let cN0 ← keyGet om.cost.N
  let idx : IdxMaps :=
    { i1 := strSet idx0.i1 name (cN0 + 1)
      iN := strSet idx0.iN name (cN0 + nw)
      N := strSet idx0.N name nw }
  let d ← keyGet om.cost.data
  let d : CostData :=
    { d with N := strSet d.N name cpN, Cw := strSet d.Cw name cp.Cw,
             vs := strSet d.vs name vs }
  -- lines 218-219
  let d := match cp.H with
    | some h => { d with H := strSet d.H name h }
    | none => d
  -- lines 221-231: the optional vector fields are stored under the literal
  -- key `"name"`, not the value of the `name` argument
  let d := match cp.dd with
    | some v => { d with dd := strSet d.dd "name" v }
    | none => d
  let d := match cp.rh with
    | some v => { d with rh := strSet d.rh "name" v }
    | none => d
  let d := match cp.kk with
    | some v => { d with kk := strSet d.kk "name" v }
    | none => d
  let d := match cp.mm with
    | some v => { d with mm := strSet d.mm "name" v }
    | none => d
  -- line 234: `self.cost["N"] = self.cost["idx"]["iN"]["name"]` (literal key)
  let cN ← strGetE idx.iN "name"
  -- line 235
  let ns ← keyGet om.cost.NS
  let ns := ns + 1
  -- line 238
  let ord ← keyGet om.cost.order
  pure { om with cost := { om.cost with
    idx := some idx, N := some cN, NS := some ns,
    order := some (natSet ord ns name), data := some d } }

/-- Python slice assignment `x[i1:iN] = src` on a 1-d array: replaces the
entries with 0-based indices `i1 .. iN-1` (half-open, clamped to the array
length); numpy raises ValueError when the slice length differs from the
source length. -/
def pySetVecSlice (x : PyVec) (i1 iN : Nat) (src : PyVec) : Except PErr PyVec :=
  let a := min i1 x.length
  let b := min iN x.length
  if b - a ≠ src.length then .error .valueError
  else .ok ((List.range x.length).map (fun j =>
    if a ≤ j ∧ j < b then src.getD (j - a) (.fin 0) else x.getD j (.fin 0)))

/-- Column-slice assignment `Ai[:, j1:jN] = Ak[:, k1:kN]` (half-open,
0-based on both sides, as Python evaluates the MATLAB-style indices of the
source); ValueError on shape mismatch. -/
def pySetColSlice (Ai : PyMat) (j1 jN : Nat) (Ak : PyMat) (k1 kN : Nat) :
    Except PErr PyMat :=
  if Ai.length ≠ Ak.length then .error .valueError
  else (List.zip Ai Ak).mapM
    (fun p => pySetVecSlice p.1 j1 jN ((p.2.drop k1).take (kN - k1)))

/-- Row-slice assignment `A[i1:iN, :] = src` (half-open, 0-based, clamped);
ValueError when the number of rows differs. -/
def pySetRowSlice (A : PyMat) (i1 iN : Nat) (src : PyMat) : Except PErr PyMat :=
  let a := min i1 A.length
  let b := min iN A.length
  if b - a ≠ src.length then .error .valueError
  else .ok ((List.range A.length).map (fun i =>
    if a ≤ i ∧ i < b then src.getD (i - a) [] else A.getD i []))

/-- Sub-block assignment `M[i1:iN, j1:jN] = src` (half-open, 0-based,
clamped); ValueError when the row counts differ or any row has the wrong
width. -/
def pySetBlock (M : PyMat) (i1 iN j1 jN : Nat) (src : PyMat) :
    Except PErr PyMat :=
  let a := min i1 M.length
  let b := min iN M.length
  if b - a ≠ src.length then .error .valueError
  else (List.range M.length).mapM (fun i =>
    if a ≤ i ∧ i < b then
      pySetVecSlice (M.getD i []) j1 jN (src.getD (i - a) [])
    else .ok (M.getD i []))

/-- Loop body of `linear_constraints` (opf_model.py lines 646-665): one
iteration for insertion position `k`, scattering block `order[k]` into the
accumulated `(A, l, u)`. -/
def linBlock (om : OM) (acc : PyMat × PyVec × PyVec) (k : Nat) :
    Except PErr (PyMat × PyVec × PyVec) := do
  let (A, l, u) := acc
  -- line 647: `name = self.lin["order"][k]`; insertion stored names under
  -- the keys 1..NS, so `k` counted from 0 misses key 0
  let ord ← keyGet om.lin.order
  let name ← natGetE ord k
  -- line 648
  let idx ← keyGet om.lin.idx
  let n ← strGetE idx.N name
  if n = 0 then pure (A, l, u)
  else do
    -- lines 650-653
    let d ← keyGet om.lin.data
    let Ak ← strGetE d.A name
    let i1 ← strGetE idx.i1 name
    let iN ← strGetE idx.iN name
    let vsl ← strGetE d.vs name
    -- line 655
    let varN ← keyGet om.var.N
    let Ai := zerosMat n varN
    -- lines 656-661: column scatter over the block's varsets
    let st ← match vsl with
      | .list names =>
          names.foldlM
            (fun (st : PyMat × Nat) v => do
              let (Ai, kN) := st
              let vidx ← keyGet om.var.idx
              let j1 ← strGetE vidx.i1 v
              let jN ← strGetE vidx.iN v
              let nk ← strGetE vidx.N v
              let k1 := kN + 1
              let kN := kN + nk
              let Ai ← pySetColSlice Ai j1 jN Ak k1 kN
              pure (Ai, kN))
            (Ai, 0)
      | .refMap _ =>
          -- iterating the aliased `var["order"]` dict yields its integer
          -- keys; looking an integer up in the string-keyed index maps
          -- raises KeyError
          Except.error .keyError
    -- lines 663-665
    let A ← pySetRowSlice A i1 iN st.1
    let lk ← strGetE d.l name
    let uk ← strGetE d.u name
    let l ← pySetVecSlice l i1 iN lk
    let u ← pySetVecSlice u i1 iN uk
    pure (A, l, u)

/-- Embedding of `opf_model.linear_constraints` (opf_model.py lines
627-667): initializes `A` to zeros and `l`/`u` to -Inf/+Inf, then scatters
each registered block in insertion order. -/
def linear_constraints (om : OM) : Except PErr (PyMat × PyVec × PyVec) := do
  -- lines 641-643
  let linN ← keyGet om.lin.N
  let varN ← keyGet om.var.N
  let A := zerosMat linN varN
  let u := infVec linN
  let l := vecNeg u
  -- lines 646-665
  let ns ← keyGet om.lin.NS
  (List.range ns).foldlM (linBlock om) (A, l, u)

/-- Loop body of `build_cost_params` (opf_model.py lines 310-339): one
iteration for insertion position `k`, scattering cost block `order[k]` into
the accumulated parameter struct. -/
def costBlock (om : OM) (acc : CostParams) (k : Nat) : Except PErr CostParams := do
  -- line 311: `name = self.cost["order"][k]`; insertion stored names under
  -- the keys 1..NS, so `k` counted from 0 misses key 0
  let ord ← keyGet om.cost.order
  let name ← natGetE ord k
  -- lines 312-315
  let d ← keyGet om.cost.data
  let Nk ← strGetE d.N name
  let idx ← keyGet om.cost.idx
  let i1 ← strGetE idx.i1 name
  let iN ← strGetE idx.iN name
  let nk ← strGetE idx.N name
  if nk = 0 then pure acc
  else do
    -- lines 316-323: column scatter over the block's varsets
    let vsl ← strGetE d.vs name
    let Nacc ← match vsl with
      | .list names =>
          (names.foldlM
            (fun (st : PyMat × Nat) v => do
              let (Nacc, kN) := st
              let vidx ← keyGet om.var.idx
              let j1 ← strGetE vidx.i1 v
              let jN ← strGetE vidx.iN v
              let nkv ← strGetE vidx.N v
              let k1 := kN + 1
              let kN := kN + nkv
              let Nacc ← pySetBlock Nacc i1 iN j1 jN
                (Nk.map (fun (r : PyVec) => (r.drop k1).take (kN - k1)))
              pure (Nacc, kN))
            (acc.N, 0)).map Prod.fst
      | .refMap _ =>
          -- iterating the aliased `var["order"]` dict yields integer keys;
          -- looking them up in the string-keyed index maps raises KeyError
          Except.error .keyError
    -- line 325
    let Cwk ← strGetE d.Cw name
    let cw ← pySetVecSlice acc.Cw i1 iN Cwk
    -- lines 326-339: optional pieces
    let hAcc ← match strGet? d.H name with
      | some h => pySetBlock acc.H i1 iN i1 iN h
      | none => pure acc.H
    let ddAcc ← match strGet? d.dd name with
      | some v => pySetVecSlice acc.dd i1 iN v
      | none => pure acc.dd
    let rhAcc ← match strGet? d.rh name with
      | some v => pySetVecSlice acc.rh i1 iN v
      | none => pure acc.rh
    let kkAcc ← match strGet? d.kk name with
      | some v => pySetVecSlice acc.kk i1 iN v
      | none => pure acc.kk
    let mmAcc ← match strGet? d.mm name with
      | some v => pySetVecSlice acc.mm i1 iN v
      | none => pure acc.mm
    pure { N := Nacc, Cw := cw, H := hAcc, dd := ddAcc, rh := rhAcc,
           kk := kkAcc, mm := mmAcc }

/-- Embedding of `opf_model.build_cost_params` (opf_model.py lines
281-343): initializes the aggregate parameters to their defaults, fills in
each registered cost block in insertion order, and saves the result under
`self.cost["params"]`. -/
def build_cost_params (om : OM) : Except PErr OM := do
  -- line 292
  let nw ← keyGet om.cost.N
  -- lines 301-307
  let varN ← keyGet om.var.N
  let base : CostParams :=
    { N := zerosMat nw varN, Cw := zerosVec nw, H := zerosMat nw nw,
      dd := onesVec nw, rh := zerosVec nw, kk := zerosVec nw, mm := onesVec nw }
  -- lines 310-339
  let ns ← keyGet om.cost.NS
  let ps ← (List.range ns).foldlM (costBlock om) base
  -- line 342
  pure { om with cost := { om.cost with params := some ps } }

/-- Category selector strings accepted by `getN` and `get_cost_params`. -/
inductive Sel where
  | var
  | nln
  | lin
  | cost
deriving DecidableEq, Repr

/-- `getattr(self, selector)["idx"]`. -/
def catIdx (om : OM) (s : Sel) : Option IdxMaps :=
  match s with
  | .var => om.var.idx
  | .nln => om.nln.idx
  | .lin => om.lin.idx
  | .cost => om.cost.idx

/-- `getattr(self, selector)["N"]`. -/
def catN (om : OM) (s : Sel) : Option Nat :=
  match s with
  | .var => om.var.N
  | .nln => om.nln.N
  | .lin => om.lin.N
  | .cost => om.cost.N

/-- Embedding of `opf_model.getN` (opf_model.py lines 573-596).  The
source's branches are inverted relative to its docstring: when a name IS
given (line 589 tests `name is not None`) it returns the category total
(line 590); when no name is given it evaluates
`None in getattr(self, selector)["idx"]["N"]`, which is false for a
string-keyed dict, and returns 0 (lines 592-595). -/
def getN (om : OM) (s : Sel) (name : Option String) : Except PErr Nat :=
  match name with
  | some _ => keyGet (catN om s)
  | none => do
      let idx ← keyGet (catIdx om s)
      let _ := idx.N
      pure 0

/-- Embedding of `opf_model.get_cost_params` (opf_model.py lines 491-523).
A missing `params` entry is only logged at line 508; line 510 then raises
KeyError.  The named path is guarded by `self.getN('cost', name)`, which
(because of the inverted branches of `getN`) yields the category total, and
slices rows `i1 .. iN-1` (`range(i1, iN)` is half-open and 0-based). -/
def get_cost_params (om : OM) (name : Option String) : Except PErr CostParams := do
  let cp ← keyGet om.cost.params
  match name with
  | none => pure cp
  | some nm => do
      let tot ← getN om .cost (some nm)
      if tot ≠ 0 then do
        let idx ← keyGet om.cost.idx
        let i1 ← strGetE idx.i1 nm
        let iN ← strGetE idx.iN nm
        let rows := List.range' i1 (iN - i1)
        if rows.all (fun i => i < cp.Cw.length) then
          pure { N := rows.map (fun i => cp.N.getD i [])
                 Cw := rows.map (fun i => cp.Cw.getD i (.fin 0))
                 H := rows.map (fun i => cp.H.getD i [])
                 dd := rows.map (fun i => cp.dd.getD i (.fin 0))
                 rh := rows.map (fun i => cp.rh.getD i (.fin 0))
                 kk := rows.map (fun i => cp.kk.getD i (.fin 0))
                 mm := rows.map (fun i => cp.mm.getD i (.fin 0)) }
        else .error .indexError
      else pure cp

/-- Indices where `a[i] < b[i]` holds elementwise (`find(a < b)`). -/
def findLt (a b : PyVec) : List Nat :=
  (List.range (min a.length b.length)).filter
    (fun i => PyFloat.lt (a.getD i .nan) (b.getD i .nan))

/-- Source line 398 evaluates `find(r == 0 & kk == 0)`.  The bitwise `&`
binds tighter than `==`, so numpy first evaluates `0 & kk`; bitwise-and is
not defined for float arrays and numpy raises TypeError. -/
def pyFindEqDead (r kk : PyVec) : Except PErr (List Nat) :=
  let _ := (r, kk)
  .error .typeError

/-- Source line 403/404 evaluates `sparse((1, (iL, iL)), (nw, nw))`: the
data argument `1` is a scalar where the constructor requires an array, and
scipy raises TypeError. -/
def pyScalarSparse (idxs : List Nat) (nw : Nat) : Except PErr PyMat :=
  let _ := (idxs, nw)
  .error .typeError

/-- Source line 405 evaluates `ones(len(iLT), 1)`: the second positional
argument of `numpy.ones` is the dtype and `1` is not a valid dtype, so
numpy raises TypeError. -/
def pyOnesTwoArgs (n m : Nat) : Except PErr PyVec :=
  let _ := (n, m)
  .error .typeError

/-- Source line 409 evaluates `mm(iND)`: untranslated MATLAB indexing calls
the numpy array `mm` as a function; Python raises TypeError because an
ndarray is not callable. -/
def pyCallArr (v : PyVec) (idxs : List Nat) : Except PErr PyMat :=
  let _ := (v, idxs)
  .error .typeError

/-- Embedding of `opf_model.compute_cost` (opf_model.py lines 346-417).
Both the named and unnamed paths fetch parameters via `get_cost_params`
(lines 389-392); the evaluation then stops at line 398, where
`r == 0 & kk == 0` applies bitwise-and to a float array and raises
TypeError, so the remaining formula (lines 399-417, kept below as dead
code) can never produce a value. -/
def compute_cost (om : OM) (x : PyVec) (name : Option String) :
    Except PErr PyFloat := do
  let cp ← get_cost_params om name
  -- line 396: `r = N * x - rh`
  let r := vecSub (matVec cp.N x) cp.rh
  -- line 397: `iLT = find(r < -kk)`
  let iLT := findLt r (vecNeg cp.kk)
  -- line 398: raises TypeError
  let iEQ ← pyFindEqDead r cp.kk
  -- lines 399-415: dead code mirroring the source
  let iGT := findLt cp.kk r
  let iND := iLT ++ iEQ ++ iGT
  let nw := cp.N.length
  let iL := (List.range cp.dd.length).filter
    (fun i => cp.dd.getD i .nan == .fin 1)
  let iQ := (List.range cp.dd.length).filter
    (fun i => cp.dd.getD i .nan == .fin 2)
  let _LL ← pyScalarSparse iL nw
  let _QQ ← pyScalarSparse iQ nw
  let _kb ← pyOnesTwoArgs iLT.length 1
  let _M ← pyCallArr cp.mm iND
  pure (.fin 0)

/-- Embedding of `opf_model.get_idx` (opf_model.py lines 526-564): returns
the `idx` structs of the four categories (KeyError on a fresh model, where
none of them exists). -/
def get_idx (om : OM) : Except PErr (IdxMaps × IdxMaps × IdxMaps × IdxMaps) := do
  let vv ← keyGet om.var.idx
  let ll ← keyGet om.lin.idx
  let nn ← keyGet om.nln.idx
  let cc ← keyGet om.cost.idx
  pure (vv, ll, nn, cc)

/-- Embedding of `opf_model.getv` (opf_model.py lines 599-624).  The body
builds `v0`, `vl`, `vu` but contains no `return` statement, so Python
returns None on every path (modelled as `none`); the no-name path reads
`self.var["order"][k]` for `k` from 0 while insertion stored names under
the keys 1..NS. -/
def getv (om : OM) (name : Option String) :
    Except PErr (Option (PyVec × PyVec × PyVec)) := do
  match name with
  | none => do
      let ns ← keyGet om.var.NS
      let _vecs ← (List.range ns).foldlM
        (fun (acc : PyVec × PyVec × PyVec) k => do
          let ord ← keyGet om.var.order
          let nm ← natGetE ord k
          let d ← keyGet om.var.data
          let v0 ← strGetE d.v0 nm
          let vl ← strGetE d.vl nm
          let vu ← strGetE d.vu nm
          pure (acc.1 ++ v0, acc.2.1 ++ vl, acc.2.2 ++ vu))
        (([], [], []) : PyVec × PyVec × PyVec)
      pure none
  | some nm => do
      let idx ← keyGet om.var.idx
      if strHas idx.N nm then do
        let d ← keyGet om.var.data
        let _v0 ← strGetE d.v0 nm
        let _vl ← strGetE d.vl nm
        let _vu ← strGetE d.vu nm
        pure none
      else
        pure none

/-- The body of the `userdata` method (opf_model.py lines 670-686): store
when a value is given (Python then returns None), otherwise return the
stored value or None. -/
def userdata_method (om : OM) (name : String) (val : Option Int) :
    OM × Option Int :=
  match val with
  | some v => ({ om with userdata := strSet om.userdata name v }, none)
  | none => (om, strGet? om.userdata name)

/-- Attribute lookup result for `om.userdata`. -/
inductive PyAttr where
  | dictAttr (d : StrMap Int)
  | method
deriving DecidableEq, Repr

/-- Python attribute resolution for `om.userdata`: the instance attribute
`self.userdata = {}` assigned by `__init__` (line 43) shadows the class
method of the same name, so the lookup yields the dict, never the bound
method. -/
def resolveUserdataAttr (om : OM) : PyAttr := .dictAttr om.userdata

/-- A call `om.userdata(name, val)`: resolves the attribute (always the
instance dict) and calls it; a dict object is not callable, so Python
raises TypeError and the method body is unreachable. -/
def userdata_call (om : OM) (name : String) (val : Option Int) :
    Except PErr (OM × Option Int) :=
  match resolveUserdataAttr om with
  | .dictAttr _ => .error .typeError
  | .method => .ok (userdata_method om name val)

/-- Empty index maps. -/
def freshIdx : IdxMaps := { i1 := [], iN := [], N := [] }

/-- A model state whose four category dicts carry the bookkeeping entries
that the registration code reads and writes (`idx`, `N`, `NS`, `order`,
`data`), all still empty: the layout every method of the class assumes, and
the layout a correct initializer would create.  Concrete model states for
the theorems below are built from it. -/
def omReady : OM :=
  { var := { idx := some freshIdx, N := some 0, NS := some 0,
             order := some [],
             data := some { v0 := [], vl := [], vu := [] } },
    nln := { idx := some freshIdx, N := some 0, NS := some 0,
             order := some [] },
    lin := { idx := some freshIdx, N := some 0, NS := some 0,
             order := some [],
             data := some { A := [], l := [], u := [], vs := [] } },
    cost := { idx := some freshIdx, N := some 0, NS := some 0,
              order := some [],
              data := some { N := [], Cw := [], vs := [], H := [], dd := [],
                             rh := [], kk := [], mm := [] },
              params := none },
    userdata := [] }

/-- A variable category holding one registered block, laid out exactly as
`add_vars` lays it out (order key 1, indices starting at 1). -/
def varCatOf (nm : String) (n : Nat) (v0 vl vu : PyVec) : VarCat :=
  { idx := some { i1 := [(nm, 1)], iN := [(nm, n)], N := [(nm, n)] },
    N := some n, NS := some 1, order := some [(1, nm)],
    data := some { v0 := [(nm, v0)], vl := [(nm, vl)], vu := [(nm, vu)] } }

/-- A fully-populated `cp` argument with one row: `N = [[1]]`, `Cw = [2]`,
`H = 0`, `dd = 1`, `rh = 0`, `kk = 0`, `mm = 1`. -/
def cpC1 : CP :=
  { N := [[.fin 1]], Cw := [.fin 2], H := some [[.fin 0]],
    dd := some [.fin 1], rh := some [.fin 0], kk := some [.fin 0],
    mm := some [.fin 1] }

/-- Claim C1: index contiguity is supposed to hold in all four categories
after any sequence of successful registrations.  On the code it does not:
`add_costs` raises TypeError at its `&`-guarded field check before any
cost block can be registered, and a duplicate `add_vars` call completes
(the duplicate check only logs) and overwrites the index entry, after which
the first-registered block reports `i1 = 3` instead of `i1 = 1`. -/
theorem C1_contiguity_broken_by_registration_defects :
    ((add_vars omReady "x" 2 none none none).bind
      (fun s => add_costs s "c1" cpC1 (some ["x"]))) =
      Except.error PErr.typeError ∧
    ((add_vars omReady "x" 2 none none none).bind
      (fun s => add_vars s "x" 3 none none none)).map
      (fun t => (t.var.idx, t.var.N, t.var.order)) =
      Except.ok
        (some { i1 := [("x", 3)], iN := [("x", 5)], N := [("x", 3)] },
         some 5, some [(1, "x"), (2, "x")]) := by
  decide

/-- Claim C2: assembling the linear constraints of a model that holds one
variable block and one linear-constraint block does not produce the claimed
global matrix; it raises KeyError, because registration stores block names
in the order dict under the keys 1..NS while `linear_constraints` reads
`order[k]` for `k` counted from 0. -/
theorem C2_linear_assembly_raises :
    linear_constraints
      { omReady with
        var := varCatOf "Pg" 3 (zerosVec 3) (zerosVec 3)
          (List.replicate 3 (PyFloat.fin 100)),
        lin := { idx := some { i1 := [("Pbal", 1)], iN := [("Pbal", 1)],
                               N := [("Pbal", 1)] },
                 N := some 1, NS := some 1, order := some [(1, "Pbal")],
                 data := some { A := [("Pbal", [[.fin 1, .fin 1, .fin 1]])],
                                l := [("Pbal", [.fin 150])],
                                u := [("Pbal", [.fin 150])],
                                vs := [("Pbal", .list ["Pg"])] } } } =
      Except.error PErr.keyError := by
  decide

/-- Claim C3: registering a duplicate name is supposed to be rejected with
the model state unchanged.  On the code the duplicate `add_vars` call
completes normally (the check at line 252 only logs) and the `get_idx`
snapshots before and after it differ. -/
theorem C3_duplicate_registration_not_rejected :
    ((add_vars omReady "y" 4 none none none).bind
      (fun s => (add_vars s "y" 1 none none none).map
        (fun t => decide (get_idx s = get_idx t)))) =
      Except.ok false := by
  decide

/-- Claim C4: for a model holding a single cost block whose assembled
parameters would have `kk = 0`, `dd = 1`, `H = 0`, the cost at `x` is
supposed to be `Cw * (N*x - rh)` (here `2 * (1*3 - 0) = 6`).  On the code,
`build_cost_params` raises KeyError reading `order[0]` (the block is stored
under order key 1), and `compute_cost` raises KeyError fetching the never
saved `params` entry, so the claimed value is never produced. -/
theorem C4_linear_cost_roundtrip_unreachable :
    build_cost_params
      { omReady with
        var := varCatOf "x" 1 (zerosVec 1) (ninfVec 1) (infVec 1),
        cost := { idx := some { i1 := [("c", 1)], iN := [("c", 1)],
                                N := [("c", 1)] },
                  N := some 1, NS := some 1, order := some [(1, "c")],
                  data := some { N := [("c", [[.fin 1]])],
                                 Cw := [("c", [.fin 2])],
                                 vs := [("c", .list ["x"])], H := [],
                                 dd := [], rh := [], kk := [], mm := [] },
                  params := none } } =
      Except.error PErr.keyError ∧
    compute_cost
      { omReady with
        var := varCatOf "x" 1 (zerosVec 1) (ninfVec 1) (infVec 1),
        cost := { idx := some { i1 := [("c", 1)], iN := [("c", 1)],
                                N := [("c", 1)] },
                  N := some 1, NS := some 1, order := some [(1, "c")],
                  data := some { N := [("c", [[.fin 1]])],
                                 Cw := [("c", [.fin 2])],
                                 vs := [("c", .list ["x"])], H := [],
                                 dd := [], rh := [], kk := [], mm := [] },
                  params := none } }
      [.fin 3] none =
      Except.error PErr.keyError := by
  decide

/-- The assembled cost parameters of claim C5's scenario: one row with
`rh = 0`, `kk = 5`, `dd = 2`, `mm = 1`, `Cw = 1`, `H = 0`. -/
def psC5 : CostParams :=
  { N := [[.fin 1]], Cw := [.fin 1], H := [[.fin 0]], dd := [.fin 2],
    rh := [.fin 0], kk := [.fin 5], mm := [.fin 1] }

/-- Claim C5: for a cost row with `rh = 0`, `kk = 5`, `dd = 2`, the inputs
producing `R = 5` and `R = -5` are supposed to contribute zero and `R = 6`,
`R = -6` equal nonzero magnitudes.  On the code `compute_cost` never
reaches the dead-zone arithmetic: line 398 applies bitwise `&` to the float
array `kk` and raises TypeError at every one of the four inputs. -/
theorem C5_dead_zone_evaluation_raises :
    (compute_cost
      { omReady with cost := { omReady.cost with
          N := some 1, params := some psC5 } }
      [.fin 5] none = Except.error PErr.typeError) ∧
    (compute_cost
      { omReady with cost := { omReady.cost with
          N := some 1, params := some psC5 } }
      [.fin (-5)] none = Except.error PErr.typeError) ∧
    (compute_cost
      { omReady with cost := { omReady.cost with
          N := some 1, params := some psC5 } }
      [.fin 6] none = Except.error PErr.typeError) ∧
    (compute_cost
      { omReady with cost := { omReady.cost with
          N := some 1, params := some psC5 } }
      [.fin (-6)] none = Except.error PErr.typeError) := by
  decide

/-- Claim C6: a linear block registered without explicit varsets is
supposed to bind to a snapshot of the variable blocks present at
registration.  On the code the defaulted varsets is the live
`self.var["order"]` dict itself, keyed from 1; the size loop reads
`varsets[0]` and raises KeyError, and with explicit varsets the
registration still dies with TypeError at `self["lin"]["N"]`, so the block
is never stored at all. -/
theorem C6_default_varsets_registration_raises :
    (add_constraints (OM.mk (varCatOf "a" 2 (zerosVec 2) (ninfVec 2) (infVec 2))
        omReady.nln omReady.lin omReady.cost [])
      "c" (.mat [[.fin 1, .fin 1]]) [.fin 0] (some [.fin 1]) none =
      Except.error PErr.keyError) ∧
    (add_constraints (OM.mk (varCatOf "a" 2 (zerosVec 2) (ninfVec 2) (infVec 2))
        omReady.nln omReady.lin omReady.cost [])
      "c" (.mat [[.fin 1, .fin 1]]) [.fin 0] (some [.fin 1]) (some ["a"]) =
      Except.error PErr.typeError) := by
  decide

/-- Claim C7: `getN` is supposed to return the category total without a
name (here 5), a named block's count with a name (here 2 for `"x"`), and 0
for an unknown name.  On the code the branches are inverted: no name gives
0, and any name, known or unknown, gives the category total 5. -/
theorem C7_getN_branches_inverted :
    (getN
      { omReady with
        var := { idx := some { i1 := [("x", 1), ("y", 3)],
                               iN := [("x", 2), ("y", 5)],
                               N := [("x", 2), ("y", 3)] },
                 N := some 5, NS := some 2, order := some [(1, "x"), (2, "y")],
                 data := some { v0 := [("x", zerosVec 2), ("y", zerosVec 3)],
                                vl := [("x", ninfVec 2), ("y", ninfVec 3)],
                                vu := [("x", infVec 2), ("y", infVec 3)] } } }
      .var none = Except.ok 0) ∧
    (getN
      { omReady with
        var := { idx := some { i1 := [("x", 1), ("y", 3)],
                               iN := [("x", 2), ("y", 5)],
                               N := [("x", 2), ("y", 3)] },
                 N := some 5, NS := some 2, order := some [(1, "x"), (2, "y")],
                 data := some { v0 := [("x", zerosVec 2), ("y", zerosVec 3)],
                                vl := [("x", ninfVec 2), ("y", ninfVec 3)],
                                vu := [("x", infVec 2), ("y", infVec 3)] } } }
      .var (some "x") = Except.ok 5) ∧
    (getN
      { omReady with
        var := { idx := some { i1 := [("x", 1), ("y", 3)],
                               iN := [("x", 2), ("y", 5)],
                               N := [("x", 2), ("y", 3)] },
                 N := some 5, NS := some 2, order := some [(1, "x"), (2, "y")],
                 data := some { v0 := [("x", zerosVec 2), ("y", zerosVec 3)],
                                vl := [("x", ninfVec 2), ("y", ninfVec 3)],
                                vu := [("x", infVec 2), ("y", infVec 3)] } } }
      .var (some "zz") = Except.ok 5) := by
  decide

/-- Claim C8: `getv` is supposed to return the concatenated vectors without
a name and a block's own vectors with its name.  On the code the no-name
path raises KeyError reading `order[0]` (insertion keys start at 1), and
the named path returns None (the function body has no return statement). -/
theorem C8_getv_returns_nothing :
    (getv { omReady with var := varCatOf "w" 1 [.fin 7] [.fin 0] [.fin 9] }
      none = Except.error PErr.keyError) ∧
    (getv { omReady with var := varCatOf "w" 1 [.fin 7] [.fin 0] [.fin 9] }
      (some "w") = Except.ok none) := by
  decide

/-- Claim C9: the userdata round trip is supposed to store a value and
return it on a later no-value call.  On the code `__init__` assigns
`self.userdata = {}`, so the instance attribute shadows the method of the
same name and the call `om.userdata(...)` raises TypeError, for the set
call and the get call alike. -/
theorem C9_userdata_call_raises :
    userdata_call opf_model_init "foo" (some 42) =
      Except.error PErr.typeError ∧
    userdata_call opf_model_init "foo" none = Except.error PErr.typeError :=
  ⟨rfl, rfl⟩

/-- Claim C10: on the state built by `__init__` (all four category dicts
empty), every registration operation raises KeyError at its first access
to the category bookkeeping (`self.<cat>["idx"]`), for all arguments and
in both branches of `add_constraints`; hence no registration ever
completes on a freshly constructed model. -/
theorem C10_fresh_model_registrations_fail (nm : String) (n : Nat)
    (v0 vl vu : Option PyVec) (a : AorN) (l : PyVec) (u : Option PyVec)
    (vs vs2 : Option (List String)) (cp : CP) :
    add_vars opf_model_init nm n v0 vl vu = Except.error PErr.keyError ∧
    add_constraints opf_model_init nm a l u vs = Except.error PErr.keyError ∧
    add_costs opf_model_init nm cp vs2 = Except.error PErr.keyError := by
  refine ⟨rfl, ?_, rfl⟩
  cases u <;> rfl

/-- Witness for claim C10 at a concrete registration attempt on the fresh
model. -/
theorem C10_fresh_model_registrations_fail_witness :
    add_vars opf_model_init "Pg" 1 none none none =
      Except.error PErr.keyError ∧
    add_constraints opf_model_init "Pg" (.num 1) [] none none =
      Except.error PErr.keyError ∧
    add_costs opf_model_init "Pg" { N := [], Cw := [] } none =
      Except.error PErr.keyError :=
  C10_fresh_model_registrations_fail "Pg" 1 none none none (.num 1) [] none
    none none { N := [], Cw := [] }
